import Mathlib

/-!
Shallow embedding of the alarmsrv alarm-monitoring core.

Sources embedded here:
  * `app/models/alert_rule.py` — `AlertRule` and `AlertRule.evaluate`
  * `app/models/alert.py` — `Alert`, `AlertEvent`, `AlertEvent.from_alert`
  * `app/services/alert_service.py` — the alert-table CRUD operations
  * `app/services/alarm_monitor.py` — `_check_single_rule`, `_get_redis_value`
    and the three broadcast payload builders

Modelling conventions:
  * Python floats are modelled as rationals (`ℚ`), with exact arithmetic.
  * A Python value fed to `float(...)` is a `PyVal`: either a number or a
    value on which `float` raises, so parse failure is explicit.
  * The SQLite database is a `DBState`: the `alert` and `alert_event` tables
    as lists of rows in rowid order, plus the next AUTOINCREMENT ids.
  * `datetime.now().timestamp()` is an explicit `now : Int` argument.
  * A fallible `INSERT` (`execute_insert` raising, caught by the service's
    `except` blocks) is modelled by an explicit success flag / oracle.
  * `json.dumps` of the rule snapshot dict is modelled by the record
    `RuleSnapshot` holding exactly the serialized keys.
-/

namespace Alarmsrv

/-- A Python value passed to `float(...)`: either it parses to a number or
`float` raises `ValueError`/`TypeError`. -/
inductive PyVal where
  | num (q : ℚ)
  | nonNumeric
  deriving DecidableEq, Repr

/-- Python `float(v)`, returning `none` where the call would raise. -/
def pyFloat : PyVal → Option ℚ
  | .num q => some q
  | .nonNumeric => none

/-- A printable form of a `PyVal`, modelling Python `str(v)` inside
f-strings (only used to build human-readable messages). -/
def pyValStr : PyVal → String
  | .num q => toString q
  | .nonNumeric => "<non-numeric>"

/-- The absolute-difference epsilon `1e-6` used by `==` / `!=` in
`AlertRule.evaluate`. -/
def epsilon : ℚ := 1 / 1000000

/-- `AlertRule` dataclass (`app/models/alert_rule.py`), restricted to the
fields the monitoring core reads. Rules handled by the core come from the
`alert_rule` table, so `id` is present. -/
structure AlertRule where
  id : Nat
  service_type : String
  channel_id : Int
  data_type : String
  point_id : Int
  rule_name : String
  warning_level : Int
  operator : String
  value : PyVal
  enabled : Bool
  description : String
  deriving DecidableEq, Repr

/-- `AlertRule.evaluate(self, current_value)`: returns `False` when the rule
is disabled, when `float()` fails on the sample or the threshold, or when the
operator is unknown; otherwise compares, with a `1e-6` epsilon for `==`/`!=`. -/
def AlertRule.evaluate (rule : AlertRule) (current_value : PyVal) : Bool :=
  if !rule.enabled then
    false
  else
    match pyFloat current_value, pyFloat rule.value with
    | some cv, some threshold =>
        if rule.operator = ">" then decide (cv > threshold)
        else if rule.operator = "<" then decide (cv < threshold)
        else if rule.operator = ">=" then decide (cv ≥ threshold)
        else if rule.operator = "<=" then decide (cv ≤ threshold)
        else if rule.operator = "==" then decide (|cv - threshold| < epsilon)
        else if rule.operator = "!=" then decide (|cv - threshold| ≥ epsilon)
        else false
    | _, _ => false

/-- The rule snapshot dict serialized by `json.dumps` in
`AlertService.create_alert`; modelled as a record of exactly those keys. -/
structure RuleSnapshot where
  rule_name : String
  warning_level : Int
  operator : String
  value : PyVal
  description : String
  deriving DecidableEq, Repr

/-- A row of the `alert` table (`app/models/alert.py`, `Alert` dataclass as
produced by `_row_to_alert`); every stored row has an `id` and a
`triggered_at` (both columns are NOT NULL). -/
structure Alert where
  id : Nat
  rule_id : Nat
  rule_snapshot : RuleSnapshot
  service_type : String
  channel_id : Int
  data_type : String
  point_id : Int
  rule_name : String
  warning_level : Int
  operator : String
  threshold_value : PyVal
  current_value : ℚ
  status : String
  triggered_at : Int
  deriving DecidableEq, Repr

/-- A row of the `alert_event` table (`AlertEvent` dataclass); `id` is
`none` before the row is inserted. -/
structure AlertEvent where
  id : Option Nat
  rule_id : Nat
  rule_snapshot : RuleSnapshot
  service_type : String
  channel_id : Int
  data_type : String
  point_id : Int
  rule_name : String
  warning_level : Int
  operator : String
  threshold_value : PyVal
  trigger_value : ℚ
  recovery_value : Option ℚ
  event_type : String
  triggered_at : Int
  recovered_at : Option Int
  duration : Option Int
  deriving DecidableEq, Repr

/-- `AlertEvent.from_alert(alert, event_type, recovery_value)`. The Python
guard `if alert.triggered_at:` is integer truthiness: a zero timestamp yields
no duration. -/
def AlertEvent.from_alert (now : Int) (alert : Alert) (event_type : String)
    (recovery_value : Option ℚ) : AlertEvent :=
  { id := none
    rule_id := alert.rule_id
    rule_snapshot := alert.rule_snapshot
    service_type := alert.service_type
    channel_id := alert.channel_id
    data_type := alert.data_type
    point_id := alert.point_id
    rule_name := alert.rule_name
    warning_level := alert.warning_level
    operator := alert.operator
    threshold_value := alert.threshold_value
    trigger_value := alert.current_value
    recovery_value := recovery_value
    event_type := event_type
    triggered_at := alert.triggered_at
    recovered_at := if event_type = "recovery" then some now else none
    duration := if alert.triggered_at ≠ 0 then some (now - alert.triggered_at) else none }

/-- The SQLite database state: rows of `alert` and `alert_event` in rowid
order, plus the next AUTOINCREMENT ids. -/
structure DBState where
  alerts : List Alert
  events : List AlertEvent
  next_alert_id : Nat
  next_event_id : Nat
  deriving DecidableEq, Repr

/-- A database with no rows. -/
def DBState.empty : DBState :=
  { alerts := [], events := [], next_alert_id := 1, next_event_id := 1 }

/-- `AlertService.get_alert_by_id`: `SELECT * FROM alert WHERE id = ?`,
returning the first row if any. -/
def get_alert_by_id (st : DBState) (alert_id : Nat) : Option Alert :=
  (st.alerts.filter (fun a => a.id = alert_id)).head?

/-- `AlertService.get_alert_by_rule_id`: `SELECT * FROM alert WHERE
rule_id = ?`, returning the first row if any. -/
def get_alert_by_rule_id (st : DBState) (rule_id : Nat) : Option Alert :=
  (st.alerts.filter (fun a => a.rule_id = rule_id)).head?

/-- `AlertService.get_active_alert_count`: `SELECT COUNT(*) FROM alert WHERE
status = 'active'`; on any exception the handler returns `0`. `query_ok`
is false when the query raises. -/
def get_active_alert_count (st : DBState) (query_ok : Bool) : Nat :=
  if query_ok then
    (st.alerts.filter (fun a => a.status = "active")).length
  else
    0

/-- `AlertService.create_alert(rule, current_value)`: create-if-absent.
Returns the new (or existing) alert id, or `none` when the `INSERT` raises
(`insert_ok = false`). -/
def create_alert (st : DBState) (now : Int) (insert_ok : Bool)
    (rule : AlertRule) (current_value : ℚ) : Option Nat × DBState :=
  match get_alert_by_rule_id st rule.id with
  | some existing => (some existing.id, st)
  | none =>
      if insert_ok then
        let snapshot : RuleSnapshot :=
          { rule_name := rule.rule_name
            warning_level := rule.warning_level
            operator := rule.operator
            value := rule.value
            description := rule.description }
        let row : Alert :=
          { id := st.next_alert_id
            rule_id := rule.id
            rule_snapshot := snapshot
            service_type := rule.service_type
            channel_id := rule.channel_id
            data_type := rule.data_type
            point_id := rule.point_id
            rule_name := rule.rule_name
            warning_level := rule.warning_level
            operator := rule.operator
            threshold_value := rule.value
            current_value := current_value
            status := "active"
            triggered_at := now }
        (some st.next_alert_id,
          { st with alerts := st.alerts ++ [row], next_alert_id := st.next_alert_id + 1 })
      else
        (none, st)

/-- The row-wise effect of `UPDATE alert SET current_value = ? WHERE
id = ?`: rewrite `current_value` on the matching row, leave others alone. -/
def set_current_value (alert_id : Nat) (current_value : ℚ) (a : Alert) : Alert :=
  if a.id = alert_id then { a with current_value := current_value } else a

/-- `AlertService.update_alert_value(alert_id, current_value)`:
`UPDATE alert SET current_value = ? WHERE id = ?`; returns whether any row
was affected. -/
def update_alert_value (st : DBState) (alert_id : Nat) (current_value : ℚ) :
    Bool × DBState :=
  let affected := (st.alerts.filter (fun a => a.id = alert_id)).length
  (decide (affected > 0),
    { st with alerts := st.alerts.map (set_current_value alert_id current_value) })

/-- `AlertService.create_alert_event(event)`: `INSERT INTO alert_event ...`;
returns the new event id, or `none` when the `INSERT` raises
(`insert_ok = false`). -/
def create_alert_event (st : DBState) (insert_ok : Bool) (event : AlertEvent) :
    Option Nat × DBState :=
  if insert_ok then
    (some st.next_event_id,
      { st with
          events := st.events ++ [{ event with id := some st.next_event_id }]
          next_event_id := st.next_event_id + 1 })
  else
    (none, st)

/-- `AlertService.resolve_alert(alert_id, recovery_value)`: build the
recovery event from the alert, persist it, and only then delete the alert
row; any failure leaves `False`. -/
def resolve_alert (st : DBState) (now : Int) (insert_ok : Bool)
    (alert_id : Nat) (recovery_value : ℚ) : Bool × DBState :=
  match get_alert_by_id st alert_id with
  | none => (false, st)
  | some alert =>
      let event := AlertEvent.from_alert now alert "recovery" (some recovery_value)
      match create_alert_event st insert_ok event with
      | (some _, st1) =>
          let affected := (st1.alerts.filter (fun a => a.id = alert_id)).length
          let st2 := { st1 with alerts := st1.alerts.filter (fun a => a.id ≠ alert_id) }
          if affected > 0 then (true, st2) else (false, st2)
      | (none, st1) => (false, st1)

/-- The `for row in results:` loop body of
`AlertService.resolve_alerts_by_rule_id`, iterating over the snapshot of
rows returned by the initial `SELECT`. `insertOk n` tells whether the
`INSERT` that would receive event id `n` succeeds. -/
def resolve_loop (now : Int) (insertOk : Nat → Bool) :
    List Alert → DBState → List Alert → DBState × List Alert
  | [], st, acc => (st, acc)
  | alert :: rest, st, acc =>
      let event := AlertEvent.from_alert now alert "recovery" none
      match create_alert_event st (insertOk st.next_event_id) event with
      | (some _, st1) =>
          let affected := (st1.alerts.filter (fun a => a.id = alert.id)).length
          let st2 := { st1 with alerts := st1.alerts.filter (fun a => a.id ≠ alert.id) }
          if affected > 0 then
            resolve_loop now insertOk rest st2 (acc ++ [alert])
          else
            resolve_loop now insertOk rest st2 acc
      | (none, st1) => resolve_loop now insertOk rest st1 acc

/-- `AlertService.resolve_alerts_by_rule_id(rule_id)`: resolve every alert
of the rule, returning the final state and the list of resolved alerts. -/
def resolve_alerts_by_rule_id (st : DBState) (now : Int) (insertOk : Nat → Bool)
    (rule_id : Nat) : DBState × List Alert :=
  let rows := st.alerts.filter (fun a => a.rule_id = rule_id)
  resolve_loop now insertOk rows st []

/-- The outcome of the `hget` call inside `AlarmMonitor._get_redis_value`:
a string value, a missing key/field (`None`), or a raised connectivity
error (caught and turned into `None` by `_redis_hget` / the outer handler). -/
inductive RedisResult where
  | value (v : PyVal)
  | absent
  | failure
  deriving DecidableEq, Repr

/-- `AlarmMonitor._get_redis_value(rule)` after the `hget`: parse the string
with `float(...)`; missing key/field, parse failure and connectivity failure
all yield `none`. -/
def get_redis_value : RedisResult → Option ℚ
  | .value v => pyFloat v
  | .absent => none
  | .failure => none

/-- `AlarmMonitor._check_single_rule(rule)` restricted to its effect on the
database state. `current_value` is the result of `_get_redis_value`; when it
is `none` the check returns immediately. Broadcasts do not touch the
database and are modelled separately. -/
def check_single_rule (st : DBState) (now : Int) (insert_ok : Bool)
    (rule : AlertRule) (current_value : Option ℚ) : DBState :=
  match current_value with
  | none => st
  | some cv =>
      let is_triggered := rule.evaluate (.num cv)
      let existing_alert := get_alert_by_rule_id st rule.id
      if is_triggered then
        match existing_alert with
        | some existing => (update_alert_value st existing.id cv).2
        | none => (create_alert st now insert_ok rule cv).2
      else
        match existing_alert with
        | some existing => (resolve_alert st now insert_ok existing.id cv).2
        | none => st

/-- A JSON value occurring in a broadcast payload. -/
inductive JsonVal where
  | str (s : String)
  | int (n : Int)
  | rat (q : ℚ)
  deriving DecidableEq, Repr

/-- A JSON object, as an ordered list of key/value pairs. -/
def JsonObj := List (String × JsonVal)

/-- Look up a key in a JSON object. -/
def JsonObj.get (d : JsonObj) (k : String) : Option JsonVal :=
  (List.find? (fun p => p.1 = k) d).map (fun p => p.2)

/-- The broadcast envelope `{type, id, timestamp, data}` POSTed to the
notification sinks. -/
structure BroadcastMsg where
  type : String
  id : String
  timestamp : String
  data : JsonObj

/-- Python `f"{n:03d}"`: decimal, left-padded with zeros to width 3. -/
def pad3 (n : Nat) : String :=
  let s := toString n
  if s.length < 3 then String.mk (List.replicate (3 - s.length) '0') ++ s else s

/-- The payload built by `AlarmMonitor._send_alarm_broadcast` for a trigger.
`ts` stands for `datetime.now().isoformat() + "Z"`. -/
def alarm_broadcast_msg (ts : String) (alert_id : Nat) (rule : AlertRule)
    (current_value : ℚ) : BroadcastMsg :=
  { type := "alarm"
    id := "alarm_" ++ pad3 alert_id
    timestamp := ts
    data :=
      [("alarm_id", .str (toString alert_id)),
       ("service_type", .str rule.service_type),
       ("source", .str rule.service_type),
       ("device", .str (toString rule.channel_id)),
       ("channel_id", .int rule.channel_id),
       ("data_type", .str rule.data_type),
       ("point_id", .int rule.point_id),
       ("status", .int 1),
       ("level", .int rule.warning_level),
       ("value", .rat current_value),
       ("message", .str (rule.rule_name ++ ": " ++ toString current_value ++ " "
          ++ rule.operator ++ " " ++ pyValStr rule.value))] }

/-- The payload built by `AlarmMonitor._send_alarm_recovery_broadcast`;
`recovery_value = none` is the forced-resolution path, which falls back to
`value = 0.0` and a textual `reason`. -/
def alarm_recovery_broadcast_msg (ts : String) (alert_id : Nat) (rule : AlertRule)
    (recovery_value : Option ℚ) (reason : String) : BroadcastMsg :=
  let message :=
    match recovery_value with
    | some rv => rule.rule_name ++ "已恢复: " ++ toString rv ++ " (不再满足 "
        ++ rule.operator ++ " " ++ pyValStr rule.value ++ ")"
    | none => rule.rule_name ++ "已恢复: " ++ reason
  let value : ℚ :=
    match recovery_value with
    | some rv => rv
    | none => 0
  { type := "alarm"
    id := "alarm_" ++ pad3 alert_id ++ "_recovery"
    timestamp := ts
    data :=
      [("alarm_id", .str (toString alert_id)),
       ("service_type", .str rule.service_type),
       ("source", .str rule.service_type),
       ("device", .str (toString rule.channel_id)),
       ("channel_id", .int rule.channel_id),
       ("data_type", .str rule.data_type),
       ("point_id", .int rule.point_id),
       ("status", .int 0),
       ("level", .int rule.warning_level),
       ("value", .rat value),
       ("message", .str message)] }

/-- The payload built by `AlarmMonitor._send_alarm_count_broadcast`;
`now_epoch` is `int(datetime.now().timestamp())` and `update_ts` is
`datetime.now().isoformat()`. -/
def alarm_count_broadcast_msg (ts : String) (now_epoch : Int) (update_ts : String)
    (alarm_count : Nat) : BroadcastMsg :=
  { type := "alarm_num"
    id := "alarm_num_" ++ toString now_epoch
    timestamp := ts
    data :=
      [("current_alarms", .int alarm_count),
       ("update_time", .str update_ts),
       ("server_id", .str "alarmsrv")] }

/-! ### Invariants and concrete fixtures -/

/-- The data-model invariant: at most one `alert` row per `rule_id`. -/
def at_most_one_alert_per_rule (st : DBState) : Prop :=
  ∀ rid : Nat, (st.alerts.filter (fun a => a.rule_id = rid)).length ≤ 1

/-- A sample enabled rule: trigger when the value exceeds 50. -/
def sampleRule : AlertRule :=
  { id := 1, service_type := "comsrv", channel_id := 2, data_type := "T",
    point_id := 3, rule_name := "temp high", warning_level := 2,
    operator := ">", value := .num 50, enabled := true, description := "" }

/-- The snapshot `create_alert` takes of `sampleRule`. -/
def sampleSnapshot : RuleSnapshot :=
  { rule_name := "temp high", warning_level := 2, operator := ">",
    value := .num 50, description := "" }

/-- A stored alert row for `sampleRule`. -/
def sampleAlert : Alert :=
  { id := 7, rule_id := 1, rule_snapshot := sampleSnapshot,
    service_type := "comsrv", channel_id := 2, data_type := "T", point_id := 3,
    rule_name := "temp high", warning_level := 2, operator := ">",
    threshold_value := .num 50, current_value := 60, status := "active",
    triggered_at := 100 }

/-- A database holding the one active alert `sampleAlert`. -/
def sampleState : DBState :=
  { alerts := [sampleAlert], events := [], next_alert_id := 8, next_event_id := 1 }

/-- A second (anomalous, duplicate-rule) alert row for `sampleRule`. -/
def dupAlert : Alert :=
  { sampleAlert with id := 9, current_value := 70, triggered_at := 120 }

/-- A database holding two alerts for the same rule id. -/
def twoAlertState : DBState :=
  { alerts := [sampleAlert, dupAlert], events := [], next_alert_id := 10, next_event_id := 1 }

/-! ### C4 — operator semantics of `AlertRule.evaluate` -/

/-- C4: for an enabled rule with numeric threshold `t` and numeric sample
`s`, `evaluate` compares exactly for `>`, `<`, `>=`, `<=`; `==` holds
exactly when `|s - t| < 1e-6` and `!=` exactly when `|s - t| ≥ 1e-6`; and a
sample exactly `1e-6` above the threshold is NOT treated as equal. -/
theorem evaluate_operator_semantics (rule : AlertRule) (s t : ℚ)
    (hen : rule.enabled = true) (hv : rule.value = .num t) :
    (rule.operator = ">" → (rule.evaluate (.num s) = true ↔ s > t)) ∧
    (rule.operator = "<" → (rule.evaluate (.num s) = true ↔ s < t)) ∧
    (rule.operator = ">=" → (rule.evaluate (.num s) = true ↔ s ≥ t)) ∧
    (rule.operator = "<=" → (rule.evaluate (.num s) = true ↔ s ≤ t)) ∧
    (rule.operator = "==" → (rule.evaluate (.num s) = true ↔ |s - t| < epsilon)) ∧
    (rule.operator = "!=" → (rule.evaluate (.num s) = true ↔ |s - t| ≥ epsilon)) ∧
    (rule.operator = "==" → rule.evaluate (.num (t + epsilon)) = false) := by
  refine ⟨?_, ?_, ?_, ?_, ?_, ?_, ?_⟩ <;> intro hop
  · simp [AlertRule.evaluate, hen, hv, pyFloat, hop]
  · simp [AlertRule.evaluate, hen, hv, pyFloat, hop]
  · simp [AlertRule.evaluate, hen, hv, pyFloat, hop]
  · simp [AlertRule.evaluate, hen, hv, pyFloat, hop]
  · simp [AlertRule.evaluate, hen, hv, pyFloat, hop]
  · simp [AlertRule.evaluate, hen, hv, pyFloat, hop]
  · simp [AlertRule.evaluate, hen, hv, pyFloat, hop]
    exact le_abs_self _

theorem evaluate_operator_semantics_witness :
    sampleRule.evaluate (.num 60) = true ↔ (60 : ℚ) > 50 :=
  (evaluate_operator_semantics sampleRule 60 50 rfl rfl).1 rfl

/-! ### C9 — `evaluate` returns false instead of erroring -/

/-- C9: `evaluate` is total and returns `false` rather than an error when
its precondition is not met: a disabled rule yields `false` immediately, and
so does a threshold or sample on which `float()` fails. -/
theorem evaluate_no_error (rule : AlertRule) (v : PyVal) :
    (rule.enabled = false → rule.evaluate v = false) ∧
    (pyFloat v = none → rule.evaluate v = false) ∧
    (pyFloat rule.value = none → rule.evaluate v = false) := by
  refine ⟨fun hd => by simp [AlertRule.evaluate, hd], fun hv => ?_, fun ht => ?_⟩ <;>
    rcases he : rule.enabled <;>
    rcases hcv : pyFloat v <;>
    rcases hth : pyFloat rule.value <;>
    simp_all [AlertRule.evaluate]

theorem evaluate_no_error_witness :
    ({ sampleRule with enabled := false } : AlertRule).evaluate (.num 60) = false :=
  (evaluate_no_error { sampleRule with enabled := false } (.num 60)).1 rfl

/-! ### C3 — event-persistence failure aborts the resolve transition -/

/-- C3: when persisting the recovery `AlertEvent` fails, `resolve_alert`
deletes nothing, leaves the database exactly as it was, and reports
failure. -/
theorem resolve_alert_insert_failure (st : DBState) (now : Int)
    (alert_id : Nat) (recovery_value : ℚ) :
    resolve_alert st now false alert_id recovery_value = (false, st) := by
  cases h : get_alert_by_id st alert_id <;>
    simp [resolve_alert, h, create_alert_event]

/-! ### C10 — count-query failure is reported as zero -/

/-- C10: when the active-alert count query fails, `get_active_alert_count`
returns `0` rather than an error, and the heartbeat count broadcast then
carries `current_alarms = 0` — the same payload field a genuinely empty
alert table produces. -/
theorem count_failure_yields_zero (st : DBState) (ts update_ts : String)
    (now_epoch : Int) :
    get_active_alert_count st false = 0 ∧
    get_active_alert_count st false = get_active_alert_count DBState.empty true ∧
    (alarm_count_broadcast_msg ts now_epoch update_ts
        (get_active_alert_count st false)).data.get "current_alarms"
      = some (.int 0) ∧
    (alarm_count_broadcast_msg ts now_epoch update_ts
        (get_active_alert_count DBState.empty true)).data.get "current_alarms"
      = some (.int 0) :=
  ⟨rfl, rfl, rfl, rfl⟩

/-! ### C6 — no fetched value means no alert-state change -/

/-- C6: whenever `_get_redis_value` yields no value — missing key/field,
non-numeric string, or connectivity failure — the rule check leaves the
alert state completely untouched for that tick. -/
theorem check_skips_when_no_value (st : DBState) (now : Int) (insert_ok : Bool)
    (rule : AlertRule) (redis : RedisResult)
    (h : get_redis_value redis = none) :
    check_single_rule st now insert_ok rule (get_redis_value redis) = st ∧
    get_redis_value .absent = none ∧
    get_redis_value .failure = none ∧
    get_redis_value (.value .nonNumeric) = none := by
  refine ⟨?_, rfl, rfl, rfl⟩
  rw [h]
  rfl

theorem check_skips_when_no_value_witness :
    check_single_rule sampleState 5 true sampleRule (get_redis_value .absent)
        = sampleState ∧
    get_redis_value .absent = none ∧
    get_redis_value .failure = none ∧
    get_redis_value (.value .nonNumeric) = none :=
  check_skips_when_no_value sampleState 5 true sampleRule .absent rfl

/-! ### C8 — a still-triggered tick only updates `current_value` -/

/-- C8: `update_alert_value` changes only the matching row's
`current_value`: the events table and id counters are untouched, every row
is rewritten by `set_current_value`, and that rewrite preserves every field
of the row other than `current_value` (and leaves non-matching rows entirely
unchanged). -/
theorem update_alert_value_frame (st : DBState) (alert_id : Nat) (cv : ℚ)
    (a : Alert) :
    (a.id ≠ alert_id → set_current_value alert_id cv a = a) ∧
    (update_alert_value st alert_id cv).2.events = st.events ∧
    (update_alert_value st alert_id cv).2.next_alert_id = st.next_alert_id ∧
    (update_alert_value st alert_id cv).2.next_event_id = st.next_event_id ∧
    (update_alert_value st alert_id cv).2.alerts
        = st.alerts.map (set_current_value alert_id cv) ∧
    (set_current_value alert_id cv a).id = a.id ∧
    (set_current_value alert_id cv a).rule_id = a.rule_id ∧
    (set_current_value alert_id cv a).rule_snapshot = a.rule_snapshot ∧
    (set_current_value alert_id cv a).service_type = a.service_type ∧
    (set_current_value alert_id cv a).channel_id = a.channel_id ∧
    (set_current_value alert_id cv a).data_type = a.data_type ∧
    (set_current_value alert_id cv a).point_id = a.point_id ∧
    (set_current_value alert_id cv a).rule_name = a.rule_name ∧
    (set_current_value alert_id cv a).warning_level = a.warning_level ∧
    (set_current_value alert_id cv a).operator = a.operator ∧
    (set_current_value alert_id cv a).threshold_value = a.threshold_value ∧
    (set_current_value alert_id cv a).status = a.status ∧
    (set_current_value alert_id cv a).triggered_at = a.triggered_at := by
  by_cases hid : a.id = alert_id <;>
    simp [set_current_value, update_alert_value, hid]

theorem update_alert_value_frame_witness :
    set_current_value 9 65 sampleAlert = sampleAlert :=
  (update_alert_value_frame sampleState 9 65 sampleAlert).1 (by decide)

/-! ### C1 — create-if-absent keeps at most one alert per rule -/

/-- C1: `create_alert` first looks up an existing alert for the rule's id
and, if one exists, returns that alert's id without inserting a row; as a
consequence it preserves the at-most-one-alert-per-`rule_id` invariant, so
re-evaluating an already-active rule never produces a duplicate alert. -/
theorem create_alert_idempotent (st : DBState) (now : Int) (insert_ok : Bool)
    (rule : AlertRule) (cv : ℚ) :
    (∀ existing, get_alert_by_rule_id st rule.id = some existing →
        create_alert st now insert_ok rule cv = (some existing.id, st)) ∧
    (at_most_one_alert_per_rule st →
        at_most_one_alert_per_rule (create_alert st now insert_ok rule cv).2) := by
  constructor
  · intro existing hex
    simp [create_alert, hex]
  · intro hinv rid
    cases hex : get_alert_by_rule_id st rule.id with
    | some existing =>
        simpa [create_alert, hex] using hinv rid
    | none =>
        cases insert_ok with
        | false => simpa [create_alert, hex] using hinv rid
        | true =>
            have hempty : st.alerts.filter (fun a => a.rule_id = rule.id) = [] := by
              have := hex
              unfold get_alert_by_rule_id at this
              exact List.head?_eq_none_iff.mp this
            by_cases hrid : rid = rule.id
            · subst hrid
              simp [create_alert, hex, at_most_one_alert_per_rule,
                List.filter_append, hempty]
            · have hne : rule.id ≠ rid := fun hcontra => hrid hcontra.symm
              simpa [create_alert, hex, at_most_one_alert_per_rule,
                List.filter_append, hne] using hinv rid

theorem create_alert_idempotent_witness :
    create_alert sampleState 5 true sampleRule 3 = (some 7, sampleState) ∧
    at_most_one_alert_per_rule (create_alert sampleState 5 true sampleRule 3).2 :=
  ⟨(create_alert_idempotent sampleState 5 true sampleRule 3).1 sampleAlert rfl,
   (create_alert_idempotent sampleState 5 true sampleRule 3).2
     (fun _ => List.length_filter_le _ _)⟩

/-! ### C2 — resolving produces exactly one faithful recovery event -/

/-- C2: `resolve_alert` on an existing alert (with the event insert
succeeding) appends exactly one `AlertEvent`; that event's `trigger_value`
is the alert's `current_value` at resolution time, its `threshold_value` and
`rule_snapshot` are copied from the alert, its `event_type` is "recovery",
its `recovery_value` is the recovering sample, and its `duration` is
`recovered_at - triggered_at`. -/
theorem resolve_alert_roundtrip (st : DBState) (now : Int) (alert_id : Nat)
    (rv : ℚ) (alert : Alert)
    (h : get_alert_by_id st alert_id = some alert)
    (ht : alert.triggered_at ≠ 0) :
    (resolve_alert st now true alert_id rv).2.events
        = st.events
          ++ [{ AlertEvent.from_alert now alert "recovery" (some rv) with
                  id := some st.next_event_id }] ∧
    (AlertEvent.from_alert now alert "recovery" (some rv)).trigger_value
        = alert.current_value ∧
    (AlertEvent.from_alert now alert "recovery" (some rv)).threshold_value
        = alert.threshold_value ∧
    (AlertEvent.from_alert now alert "recovery" (some rv)).rule_snapshot
        = alert.rule_snapshot ∧
    (AlertEvent.from_alert now alert "recovery" (some rv)).event_type
        = "recovery" ∧
    (AlertEvent.from_alert now alert "recovery" (some rv)).recovery_value
        = some rv ∧
    (AlertEvent.from_alert now alert "recovery" (some rv)).recovered_at
        = some now ∧
    (AlertEvent.from_alert now alert "recovery" (some rv)).duration
        = some (now - alert.triggered_at) := by
  refine ⟨?_, rfl, rfl, rfl, rfl, rfl, by simp [AlertEvent.from_alert],
    by simp [AlertEvent.from_alert, ht]⟩
  by_cases haff :
      0 < (st.alerts.filter (fun a => a.id = alert_id)).length <;>
    simp [resolve_alert, h, create_alert_event, haff]

theorem resolve_alert_roundtrip_witness :
    (resolve_alert sampleState 150 true 7 45).2.events
        = [{ AlertEvent.from_alert 150 sampleAlert "recovery" (some 45) with
               id := some 1 }] := by
  have h := (resolve_alert_roundtrip sampleState 150 7 45 sampleAlert rfl
    (by decide)).1
  simpa [sampleState] using h

/-! ### C5 — forced resolution resolves every alert of the rule -/

/-- The recovery events appended by one run of the
`resolve_alerts_by_rule_id` loop when every insert succeeds: one event per
row, with consecutive event ids starting at `next_id`. -/
def mk_recovery_events (now : Int) : Nat → List Alert → List AlertEvent
  | _, [] => []
  | next_id, a :: rest =>
      { AlertEvent.from_alert now a "recovery" none with id := some next_id }
        :: mk_recovery_events now (next_id + 1) rest

lemma mk_recovery_events_length (now : Int) :
    ∀ (nid : Nat) (l : List Alert),
      (mk_recovery_events now nid l).length = l.length
  | _, [] => rfl
  | nid, _ :: rest => by
      simp [mk_recovery_events, mk_recovery_events_length now (nid + 1) rest]

lemma mk_recovery_events_mem (now : Int) :
    ∀ (nid : Nat) (l : List Alert),
      ∀ e ∈ mk_recovery_events now nid l,
        e.recovery_value = none ∧ e.event_type = "recovery"
  | _, [], e, he => by simp [mk_recovery_events] at he
  | nid, a :: rest, e, he => by
      rcases (List.mem_cons).mp he with h | h
      · subst h
        exact ⟨rfl, rfl⟩
      · exact mk_recovery_events_mem now (nid + 1) rest e h

lemma resolve_loop_cons_ok (now : Int) (insertOk : Nat → Bool) (a : Alert)
    (rest : List Alert) (st : DBState) (acc : List Alert)
    (hok : insertOk st.next_event_id = true)
    (ha : a ∈ st.alerts) :
    resolve_loop now insertOk (a :: rest) st acc =
      resolve_loop now insertOk rest
        { st with
            alerts := st.alerts.filter (fun b => b.id ≠ a.id)
            events := st.events ++
              [{ AlertEvent.from_alert now a "recovery" none with
                   id := some st.next_event_id }]
            next_event_id := st.next_event_id + 1 }
        (acc ++ [a]) := by
  have haff : 0 < (st.alerts.filter (fun b => b.id = a.id)).length :=
    List.length_pos_of_mem (List.mem_filter.mpr ⟨ha, by simp⟩)
  simp [resolve_loop, create_alert_event, hok, haff]

lemma resolve_loop_all_ok (now : Int) (insertOk : Nat → Bool)
    (hok : ∀ n, insertOk n = true) :
    ∀ (rows : List Alert) (st : DBState) (acc : List Alert),
      (∀ a ∈ rows, a ∈ st.alerts) →
      (rows.map (fun a => a.id)).Nodup →
      (resolve_loop now insertOk rows st acc).2 = acc ++ rows ∧
      (resolve_loop now insertOk rows st acc).1.alerts
          = st.alerts.filter (fun b => b.id ∉ rows.map (fun a => a.id)) ∧
      (resolve_loop now insertOk rows st acc).1.events
          = st.events ++ mk_recovery_events now st.next_event_id rows ∧
      (resolve_loop now insertOk rows st acc).1.next_event_id
          = st.next_event_id + rows.length ∧
      (resolve_loop now insertOk rows st acc).1.next_alert_id
          = st.next_alert_id := by
  intro rows
  induction rows with
  | nil =>
      intro st acc _ _
      simp [resolve_loop, mk_recovery_events]
  | cons a rest ih =>
      intro st acc hmem hnd
      have ha : a ∈ st.alerts := hmem a (List.mem_cons_self a rest)
      rw [List.map_cons, List.nodup_cons] at hnd
      have hmem' : ∀ b ∈ rest,
          b ∈ st.alerts.filter (fun b => b.id ≠ a.id) := by
        intro b hb
        have hbst : b ∈ st.alerts := hmem b (List.mem_cons_of_mem a hb)
        have hbne : b.id ≠ a.id := by
          intro hbeq
          exact hnd.1 (hbeq ▸ List.mem_map_of_mem (fun x => x.id) hb)
        exact List.mem_filter.mpr ⟨hbst, by simpa using hbne⟩
      rw [resolve_loop_cons_ok now insertOk a rest st acc (hok _) ha]
      have hrec := ih
        { st with
            alerts := st.alerts.filter (fun b => b.id ≠ a.id)
            events := st.events ++
              [{ AlertEvent.from_alert now a "recovery" none with
                   id := some st.next_event_id }]
            next_event_id := st.next_event_id + 1 }
        (acc ++ [a]) hmem' hnd.2
      refine ⟨?_, ?_, ?_, ?_, ?_⟩
      · rw [hrec.1]
        simp
      · rw [hrec.2.1]
        show (st.alerts.filter (fun b => b.id ≠ a.id)).filter _ = _
        rw [List.filter_filter]
        apply List.filter_congr
        intro b _
        simp [List.mem_cons, not_or, Bool.and_comm]
      · rw [hrec.2.2.1]
        show (st.events ++ _) ++ _ = _
        rw [List.append_assoc]
        rfl
      · rw [hrec.2.2.2.1]
        show st.next_event_id + 1 + rest.length = _
        simp [List.length_cons]
        omega
      · exact hrec.2.2.2.2

/-- C5: with every event insert succeeding and distinct row ids (the
`alert` primary key), `resolve_alerts_by_rule_id` resolves every alert for
the rule without evaluating any sample: it returns exactly the alerts that
had that `rule_id` (even when there is more than one), deletes exactly
those rows, and appends one recovery `AlertEvent` per alert with
`recovery_value = none`. -/
theorem resolve_by_rule_resolves_all (st : DBState) (now : Int)
    (insertOk : Nat → Bool) (rid : Nat)
    (hok : ∀ n, insertOk n = true)
    (hids : (st.alerts.map (fun a => a.id)).Nodup) :
    (resolve_alerts_by_rule_id st now insertOk rid).2
        = st.alerts.filter (fun a => a.rule_id = rid) ∧
    (∀ b ∈ (resolve_alerts_by_rule_id st now insertOk rid).1.alerts,
        b.rule_id ≠ rid) ∧
    (∀ b ∈ st.alerts, b.rule_id ≠ rid →
        b ∈ (resolve_alerts_by_rule_id st now insertOk rid).1.alerts) ∧
    (resolve_alerts_by_rule_id st now insertOk rid).1.events
        = st.events ++ mk_recovery_events now st.next_event_id
            (st.alerts.filter (fun a => a.rule_id = rid)) ∧
    (∀ e ∈ mk_recovery_events now st.next_event_id
          (st.alerts.filter (fun a => a.rule_id = rid)),
        e.recovery_value = none ∧ e.event_type = "recovery") ∧
    (mk_recovery_events now st.next_event_id
          (st.alerts.filter (fun a => a.rule_id = rid))).length
        = (st.alerts.filter (fun a => a.rule_id = rid)).length := by
  have hsub : ∀ a ∈ st.alerts.filter (fun a => a.rule_id = rid),
      a ∈ st.alerts := fun a ha => (List.mem_filter.mp ha).1
  have hrowsnd :
      ((st.alerts.filter (fun a => a.rule_id = rid)).map
        (fun a => a.id)).Nodup :=
    List.Nodup.sublist
      (List.Sublist.map _ (List.filter_sublist st.alerts)) hids
  have h := resolve_loop_all_ok now insertOk hok
    (st.alerts.filter (fun a => a.rule_id = rid)) st [] hsub hrowsnd
  refine ⟨by simpa [resolve_alerts_by_rule_id] using h.1, ?_, ?_,
    by simpa [resolve_alerts_by_rule_id] using h.2.2.1,
    mk_recovery_events_mem now st.next_event_id _,
    mk_recovery_events_length now st.next_event_id _⟩
  · intro b hb
    rw [show (resolve_alerts_by_rule_id st now insertOk rid).1
          = (resolve_loop now insertOk
              (st.alerts.filter (fun a => a.rule_id = rid)) st []).1 from rfl,
        h.2.1] at hb
    rcases List.mem_filter.mp hb with ⟨hbst, hbid⟩
    intro hbr
    have hbrow : b ∈ st.alerts.filter (fun a => a.rule_id = rid) :=
      List.mem_filter.mpr ⟨hbst, by simpa using hbr⟩
    have : b.id ∈ (st.alerts.filter (fun a => a.rule_id = rid)).map
        (fun a => a.id) := List.mem_map_of_mem _ hbrow
    exact of_decide_eq_true hbid this
  · intro b hbst hbr
    rw [show (resolve_alerts_by_rule_id st now insertOk rid).1
          = (resolve_loop now insertOk
              (st.alerts.filter (fun a => a.rule_id = rid)) st []).1 from rfl,
        h.2.1]
    refine List.mem_filter.mpr ⟨hbst, ?_⟩
    simp only [decide_eq_true_eq]
    intro hbid
    rcases List.mem_map.mp hbid with ⟨c, hcrow, hcid⟩
    have hcst : c ∈ st.alerts := hsub c hcrow
    have : c = b := List.inj_on_of_nodup_map hids hcst hbst hcid
    subst this
    exact hbr (by simpa using (List.mem_filter.mp hcrow).2)

theorem resolve_by_rule_resolves_all_witness :
    (resolve_alerts_by_rule_id twoAlertState 200 (fun _ => true) 1).2
        = [sampleAlert, dupAlert] :=
  ((resolve_by_rule_resolves_all twoAlertState 200 (fun _ => true) 1
      (fun _ => rfl) (by decide)).1).trans (by decide)

/-! ### C7 — broadcast payload envelope -/

/-- C7 counterexample: the count-snapshot broadcast is a well-formed
envelope of type "alarm_num", but its `data` carries none of
`service_type`, `channel_id`, `data_type`, `point_id`, `level`, `value`,
`message` — so "data always carrying ..." fails for the count-snapshot
kind. -/
theorem alarm_count_payload_lacks_rule_fields :
    (alarm_count_broadcast_msg "2025-01-01T00:00:00Z" 1735689600
        "2025-01-01T00:00:00" 5).type = "alarm_num" ∧
    (alarm_count_broadcast_msg "2025-01-01T00:00:00Z" 1735689600
        "2025-01-01T00:00:00" 5).data.get "service_type" = none ∧
    (alarm_count_broadcast_msg "2025-01-01T00:00:00Z" 1735689600
        "2025-01-01T00:00:00" 5).data.get "channel_id" = none ∧
    (alarm_count_broadcast_msg "2025-01-01T00:00:00Z" 1735689600
        "2025-01-01T00:00:00" 5).data.get "data_type" = none ∧
    (alarm_count_broadcast_msg "2025-01-01T00:00:00Z" 1735689600
        "2025-01-01T00:00:00" 5).data.get "point_id" = none ∧
    (alarm_count_broadcast_msg "2025-01-01T00:00:00Z" 1735689600
        "2025-01-01T00:00:00" 5).data.get "level" = none ∧
    (alarm_count_broadcast_msg "2025-01-01T00:00:00Z" 1735689600
        "2025-01-01T00:00:00" 5).data.get "value" = none ∧
    (alarm_count_broadcast_msg "2025-01-01T00:00:00Z" 1735689600
        "2025-01-01T00:00:00" 5).data.get "message" = none :=
  ⟨rfl, rfl, rfl, rfl, rfl, rfl, rfl, rfl⟩

/-- C7 (amended): every broadcast payload is an envelope
`{type, id, timestamp, data}` with type in {"alarm", "alarm_num"};
trigger payloads have `data.status = 1` and recovery payloads
`data.status = 0`, and both carry `service_type`, `channel_id`,
`data_type`, `point_id`, `level`, `value` and a human-readable `message`;
the count-snapshot payload's `data` instead carries exactly
`current_alarms`, `update_time` and `server_id`. -/
theorem broadcast_envelope_spec (ts update_ts reason : String)
    (alert_id : Nat) (rule : AlertRule) (cv : ℚ) (rv : Option ℚ)
    (now_epoch : Int) (cnt : Nat) :
    (alarm_broadcast_msg ts alert_id rule cv).type = "alarm" ∧
    (alarm_recovery_broadcast_msg ts alert_id rule rv reason).type = "alarm" ∧
    (alarm_count_broadcast_msg ts now_epoch update_ts cnt).type = "alarm_num" ∧
    (alarm_broadcast_msg ts alert_id rule cv).timestamp = ts ∧
    (alarm_recovery_broadcast_msg ts alert_id rule rv reason).timestamp = ts ∧
    (alarm_count_broadcast_msg ts now_epoch update_ts cnt).timestamp = ts ∧
    (alarm_broadcast_msg ts alert_id rule cv).data.get "status"
        = some (.int 1) ∧
    (alarm_recovery_broadcast_msg ts alert_id rule rv reason).data.get "status"
        = some (.int 0) ∧
    (alarm_broadcast_msg ts alert_id rule cv).data.get "service_type"
        = some (.str rule.service_type) ∧
    (alarm_broadcast_msg ts alert_id rule cv).data.get "channel_id"
        = some (.int rule.channel_id) ∧
    (alarm_broadcast_msg ts alert_id rule cv).data.get "data_type"
        = some (.str rule.data_type) ∧
    (alarm_broadcast_msg ts alert_id rule cv).data.get "point_id"
        = some (.int rule.point_id) ∧
    (alarm_broadcast_msg ts alert_id rule cv).data.get "level"
        = some (.int rule.warning_level) ∧
    (alarm_broadcast_msg ts alert_id rule cv).data.get "value"
        = some (.rat cv) ∧
    ((alarm_broadcast_msg ts alert_id rule cv).data.get "message").isSome
        = true ∧
    (alarm_recovery_broadcast_msg ts alert_id rule rv reason).data.get
        "service_type" = some (.str rule.service_type) ∧
    (alarm_recovery_broadcast_msg ts alert_id rule rv reason).data.get
        "channel_id" = some (.int rule.channel_id) ∧
    (alarm_recovery_broadcast_msg ts alert_id rule rv reason).data.get
        "data_type" = some (.str rule.data_type) ∧
    (alarm_recovery_broadcast_msg ts alert_id rule rv reason).data.get
        "point_id" = some (.int rule.point_id) ∧
    (alarm_recovery_broadcast_msg ts alert_id rule rv reason).data.get
        "level" = some (.int rule.warning_level) ∧
    ((alarm_recovery_broadcast_msg ts alert_id rule rv reason).data.get
        "value").isSome = true ∧
    ((alarm_recovery_broadcast_msg ts alert_id rule rv reason).data.get
        "message").isSome = true ∧
    (alarm_count_broadcast_msg ts now_epoch update_ts cnt).data
        = [("current_alarms", .int cnt), ("update_time", .str update_ts),
           ("server_id", .str "alarmsrv")] :=
  ⟨rfl, rfl, rfl, rfl, rfl, rfl, rfl, rfl, rfl, rfl, rfl, rfl, rfl, rfl, rfl,
   rfl, rfl, rfl, rfl, rfl, rfl, rfl, rfl⟩

end Alarmsrv
